import Mathlib

/-!
Verification of the gameplay state machine of the Snake-game repository
(files src/Snake_Game_files/main.py and src/Snake_Game_files/scoreboard.py)
against its natural-language specification.

The embedding below translates the per-tick check logic of main.py's main
loop, the window-close handler on_close, the speed-prompt loop, the
module-level replay loop, and the Score class of scoreboard.py into plain
executable Lean definitions.  Geometry uses integer grid coordinates
(the creature moves on a fixed step grid); turtle's Euclidean
distance(a, b) < t test is modelled by comparing squared distances, which
is exact on integer inputs.  The files snake.py and food.py are not part
of the analysed sources; the few facts needed about them (the segment
list keeps the head as its last entry, growth appends one segment at the
vacated tail slot, respawn picks a fresh position) are modelled from the
spec and noted at their definitions, with freshly chosen positions passed
in as explicit oracle arguments.
-/

/-- A 2D grid coordinate of the turtle canvas. -/
structure Point where
  x : Int
  y : Int
deriving DecidableEq, Repr

/-- Models the comparison turtle.distance(p, q) < t used by main.py
(Euclidean distance, strict): on integer coordinates and a positive
threshold this is exactly a squared-distance comparison. -/
def distLt (p q : Point) (t : Int) : Bool :=
  decide ((p.x - q.x) ^ 2 + (p.y - q.y) ^ 2 < t ^ 2)

/-- The border-collision test of main.py line 210:
(x > 485 or x < -485) or (y > 385 or y < -385). -/
def borderHit (h : Point) : Bool :=
  decide (h.x > 485 ∨ h.x < -485 ∨ h.y > 385 ∨ h.y < -385)

/-! ### Decimal text: models of Python str(int) and int(str)

scoreboard.py stores the best score as decimal text (f-string of an int)
and reads it back with the built-in int().  Both builtins are external to
the repository; they are modelled here by an executable decimal printer
and parser over the character list of the string. -/

/-- Numeric value of a decimal digit character. -/
def digitVal (c : Char) : Nat := c.toNat - '0'.toNat

/-- Value of a digit string, most significant digit first
(the accumulator fold used by a decimal parser). -/
def digitsToNat (l : List Char) : Nat :=
  l.foldl (fun n c => n * 10 + digitVal c) 0

/-- A nonempty all-digit character list: models Python str.isdigit()
restricted to ASCII decimal digits (the only digits this program writes). -/
def isDigitStr (l : List Char) : Bool :=
  !l.isEmpty && l.all Char.isDigit

/-- Models the Python built-in int() applied to a string: an optional
leading minus sign followed by a nonempty run of decimal digits; any
other shape raises ValueError, modelled as none.  (Python additionally
tolerates surrounding whitespace, a plus sign and underscores; those
shapes never occur in this program's files and are not modelled.) -/
def pyInt? (s : String) : Option Int :=
  match s.data with
  | [] => none
  | c :: cs =>
    if c = '-' then
      if isDigitStr cs then some (-(digitsToNat cs : Int)) else none
    else if isDigitStr (c :: cs) then some ((digitsToNat (c :: cs) : Int))
    else none

/-- Fuel-driven decimal printer (most significant digit first); with fuel
greater than n it renders n exactly. -/
def natReprCharsAux : Nat → Nat → List Char
  | 0, _ => []
  | fuel + 1, n =>
    if n < 10 then [Nat.digitChar n]
    else natReprCharsAux fuel (n / 10) ++ [Nat.digitChar (n % 10)]

/-- Decimal digits of n, most significant first. -/
def natReprChars (n : Nat) : List Char := natReprCharsAux (n + 1) n

/-- Models the Python f-string rendering of a nonnegative int
(f"\x7bself.score\x7d" in scoreboard.py): plain decimal text. -/
def natRepr (n : Nat) : String := ⟨natReprChars n⟩

/-! ### Scoreboard (scoreboard.py, class Score)

The score file is modelled as an `Option String`: none means the file
does not exist, some s means it exists with content s. -/

/-- Score.__init__ lines 53-55: if the score file does not exist, create
it with content "0"; an existing file is left untouched. -/
def score_init_file (file : Option String) : Option String :=
  match file with
  | none => some "0"
  | some s => some s

/-- Score.save_score lines 74-79: open the file in write mode (truncating
whatever it held, creating it if absent) and write the decimal text of
the current score.  The previous content is irrelevant. -/
def save_score (score : Nat) (_file : Option String) : Option String :=
  some (natRepr score)

/-- Score.read_file_score lines 88-94: open the file and return
int(contents).  A missing file or a non-integer content raises
(FileNotFoundError / ValueError), modelled as none. -/
def read_file_score (file : Option String) : Option Int :=
  match file with
  | none => none
  | some s => pyInt? s

/-- The file mutation performed by Score.game_over lines 127-130: if the
session's score is strictly greater than the stored value, save_score
overwrites the file; otherwise the file is untouched.  When the read
raises (missing or corrupt file) the exception propagates before any
write, so the file is also untouched. -/
def game_over_file (score : Nat) (file : Option String) : Option String :=
  match read_file_score file with
  | none => file
  | some best => if (score : Int) > best then save_score score file else file

/-- The best value shown in the game-over summary (scoreboard.py line
142): read_file_score is re-invoked after the conditional persist, so the
summary reads the post-persist file. -/
def game_over_display (score : Nat) (file : Option String) : Option Int :=
  read_file_score (game_over_file score file)

/-! ### Decimal round-trip lemmas -/

theorem digitsToNat_append (l : List Char) (c : Char) :
    digitsToNat (l ++ [c]) = 10 * digitsToNat l + digitVal c := by
  simp [digitsToNat, List.foldl_append, Nat.mul_comm]

theorem digitVal_digitChar : ∀ d : Nat, d < 10 → digitVal (Nat.digitChar d) = d := by
  decide

theorem isDigit_digitChar : ∀ d : Nat, d < 10 → (Nat.digitChar d).isDigit = true := by
  decide

theorem natReprCharsAux_spec :
    ∀ fuel n : Nat, n < fuel →
      natReprCharsAux fuel n ≠ [] ∧
      (natReprCharsAux fuel n).all Char.isDigit = true ∧
      digitsToNat (natReprCharsAux fuel n) = n := by
  intro fuel
  induction fuel with
  | zero => intro n h; omega
  | succ fuel ih =>
    intro n h
    by_cases h10 : n < 10
    · refine ⟨by simp [natReprCharsAux, h10], ?_, ?_⟩
      · simp [natReprCharsAux, h10, isDigit_digitChar n h10]
      · simp [natReprCharsAux, h10, digitsToNat, digitVal_digitChar n h10]
    · have hdiv : n / 10 < fuel := by omega
      obtain ⟨hne, hall, hval⟩ := ih (n / 10) hdiv
      have hmod : n % 10 < 10 := Nat.mod_lt _ (by omega)
      refine ⟨by simp [natReprCharsAux, h10], ?_, ?_⟩
      · simp [natReprCharsAux, h10, List.all_append, hall,
          isDigit_digitChar (n % 10) hmod]
      · rw [show natReprCharsAux (fuel + 1) n
            = natReprCharsAux fuel (n / 10) ++ [Nat.digitChar (n % 10)] by
              simp [natReprCharsAux, h10]]
        rw [digitsToNat_append, hval, digitVal_digitChar (n % 10) hmod]
        omega

theorem natReprChars_spec (n : Nat) :
    natReprChars n ≠ [] ∧
    (natReprChars n).all Char.isDigit = true ∧
    digitsToNat (natReprChars n) = n := by
  simpa [natReprChars] using natReprCharsAux_spec (n + 1) n (by omega)

theorem pyInt_natRepr (n : Nat) : pyInt? (natRepr n) = some (n : Int) := by
  obtain ⟨hne, hall, hval⟩ := natReprChars_spec n
  rcases hl : natReprChars n with _ | ⟨c, cs⟩
  · exact absurd hl hne
  · have hdata : (natRepr n).data = c :: cs := by
      simp [natRepr, hl]
    have hall2 : (c :: cs).all Char.isDigit = true := by
      rw [← hl]; exact hall
    have hcdigit : c.isDigit = true := by
      simp [List.all_cons] at hall2; exact hall2.1
    have hcne : ¬ c = '-' := by
      intro hc; rw [hc] at hcdigit; exact absurd hcdigit (by decide)
    have hds : isDigitStr (c :: cs) = true := by
      simp [isDigitStr, hall2]
    rw [show pyInt? (natRepr n)
        = some ((digitsToNat (c :: cs) : Nat) : Int) by
          simp [pyInt?, hdata, hcne, hds]]
    rw [← hl, hval]

/-! ### The per-tick check phase of main.py's game loop (lines 199-242)

Each iteration of `while game_on` paces the tick, refreshes the score
display, calls snake.move (snake.py, external to the analysed sources),
and then runs three mutually exclusive checks on the post-move state:
border collision (game over), food consumption (respawn food, extend
snake, score += 1), and otherwise self-collision against
snake.turtles[:-2] (game over).  A game-over branch also runs
score.game_over, whose only state effect beyond presentation is the
conditional persist modelled by game_over_file.

Modelled from the spec (snake.py is not under the analysed sources):
the segment list snake.turtles keeps the head as its LAST entry, so that
slicing off the last two entries excludes the head and the segment
immediately behind it (spec section 4.1); snake_extend appends one
segment at the vacated tail slot, i.e. at the front of the list, whose
fresh position is passed in as the oracle argument newSeg; likewise
food.apear_food picks a fresh position passed in as newFood. -/

/-- The state read and written by one iteration of the main loop. -/
structure GameState where
  turtles : List Point
  food : Point
  score : Nat
  game_on : Bool
  file : Option String
deriving DecidableEq, Repr

/-- snake.head of the post-move state: the last entry of the segment
list (modelled from the spec; see the section comment above). -/
def headPos (s : GameState) : Point := s.turtles.getLastD ⟨0, 0⟩

/-- Which terminal check fired in a tick. -/
inductive Cause where
  | boundary
  | selfCollision
deriving DecidableEq, Repr

/-- Observable per-tick effects, mirroring the calls main.py makes in
each branch: which game-over check fired, whether food.apear_food ran,
whether snake.snake_extend ran, by how much score.score was incremented,
and whether the self-collision loop was entered at all. -/
structure TickEffects where
  gameOver : Option Cause
  respawned : Bool
  grew : Bool
  scoreDelta : Nat
  selfCheckRun : Bool
deriving DecidableEq, Repr

/-- The self-collision test of main.py lines 230-232: some entry of
snake.turtles[:-2] lies within distance 10 of the head. -/
def selfHit (h : Point) (turtles : List Point) : Bool :=
  (turtles.dropLast.dropLast).any (fun seg => distLt h seg 10)

/-- One pass of the per-tick checks of main.py lines 210-242, applied to
the post-move state, together with the effects it performs.  newFood and
newSeg are the oracle positions described in the section comment. -/
def tick (s : GameState) (newFood newSeg : Point) : GameState × TickEffects :=
  if borderHit (headPos s) then
    ({ s with game_on := false, file := game_over_file s.score s.file },
     ⟨some .boundary, false, false, 0, false⟩)
  else if distLt (headPos s) s.food 15 then
    ({ s with
        food := newFood
        turtles := newSeg :: s.turtles
        score := s.score + 1 },
     ⟨none, true, true, 1, false⟩)
  else if selfHit (headPos s) s.turtles then
    ({ s with game_on := false, file := game_over_file s.score s.file },
     ⟨some .selfCollision, false, false, 0, true⟩)
  else (s, ⟨none, false, false, 0, true⟩)

theorem getLastD_append_pair (l : List Point) (b h d : Point) :
    (l ++ [b, h]).getLastD d = h := by
  simp [List.getLastD_eq_getLast?, List.getLast?_append]

theorem dropLast_append_pair (l : List Point) (b h : Point) :
    (l ++ [b, h]).dropLast.dropLast = l := by
  simp

/-! ### The window-close handler (main.py lines 161-184)

on_close reads the module globals game_on and is_on_close: when the game
is already stopped and a close was already observed it destroys the Tk
window, otherwise it shows the goodbye message; in both cases it then
sets game_on to False and is_on_close to True.  The handler is reachable
only while the window exists, so a sequence of clicks on the close
control is modelled by close_clicks, which stops dispatching once the
window has been destroyed. -/

/-- The flags shared between the game loop and the close handler, plus
whether tk_window.destroy() has run. -/
structure CloseState where
  game_on : Bool
  is_on_close : Bool
  destroyed : Bool
deriving DecidableEq, Repr

/-- One invocation of on_close: the resulting flag state and whether
this invocation called tk_window.destroy(). -/
def on_close (s : CloseState) : CloseState × Bool :=
  if !s.game_on && s.is_on_close then (⟨false, true, true⟩, true)
  else (⟨false, true, s.destroyed⟩, false)

/-- n successive activations of the close control: an activation reaches
the handler only while the window is not yet destroyed.  Returns the
final state and how many of the activations called tk_window.destroy(). -/
def close_clicks : Nat → CloseState → CloseState × Nat
  | 0, s => (s, 0)
  | n + 1, s =>
    if s.destroyed then (s, 0)
    else
      ((close_clicks n (on_close s).1).1,
       (if (on_close s).2 then 1 else 0) + (close_clicks n (on_close s).1).2)

/-- The return value of main at the end of the game loop (main.py lines
255-259): False when is_on_close is set, True otherwise. -/
def main_returns (is_on_close : Bool) : Bool :=
  if is_on_close then false else true

/-! ### The speed prompt loop (main.py lines 124-153) -/

/-- Models Python str.lower() (ASCII case folding suffices here). -/
def pyLower (s : String) : String := ⟨s.data.map Char.toLower⟩

/-- Models Python str(x) on an optional prompt answer: None renders as
"None". -/
def strOfOpt : Option String → String
  | none => "None"
  | some r => r

/-- The validity test of main.py line 138, negated: the input consists
solely of digits (str.isdigit) and its integer value is at most 20 and
at least 10. -/
def validSpeed (s : String) : Bool :=
  isDigitStr s.data &&
    !decide (digitsToNat s.data > 20) && !decide (digitsToNat s.data < 10)

/-- Outcome of the speed prompt phase. -/
inductive SpeedOutcome where
  | cancelled
  | started (speed : Nat)
  | pending
deriving DecidableEq, Repr

/-- The speed prompt loop over the successive prompt answers (none
models clicking Cancel): a valid answer starts the session with that
speed, Cancel stops, an invalid answer shows the transient hint and
re-prompts.  The second component counts the transient hints shown.
pending is the model's marker for running out of listed answers while
the loop is still re-prompting. -/
def speed_phase : List (Option String) → SpeedOutcome × Nat
  | [] => (.pending, 0)
  | none :: _ => (.cancelled, 0)
  | some s :: rest =>
    if validSpeed s then (.started (digitsToNat s.data), 0)
    else ((speed_phase rest).1, (speed_phase rest).2 + 1)

/-- What main does with the speed phase outcome: on Cancel it shows the
goodbye message and returns False at once (no session); on a valid speed
it proceeds into a session; pending marks the model's exhausted-input
case. -/
structure SpeedPhaseEnd where
  goodbyeShown : Bool
  earlyReturn : Option Bool
  sessionSpeed : Option Nat
deriving DecidableEq, Repr

/-- main.py lines 128-133 and 149-153 around the prompt loop. -/
def main_speed_result : SpeedOutcome → SpeedPhaseEnd
  | .cancelled => ⟨true, some false, none⟩
  | .started k => ⟨false, none, some k⟩
  | .pending => ⟨false, none, none⟩

/-! ### The replay loop (main.py lines 269-300)

Each iteration first tests is_on_close; only when it is still False does
the textinput replay prompt appear.  The loop is modelled over the list
of iterations, each carrying the value of is_on_close observed at its
start and the prompt answer; the result counts the replay prompts
shown. -/

def replay_prompts : List (Bool × Option String) → Nat
  | [] => 0
  | (onClose, inp) :: rest =>
    if onClose then 0
    else if pyLower (strOfOpt inp) = "y" then 1 + replay_prompts rest
    else if pyLower (strOfOpt inp) = "n" || inp == none then 1
    else 1 + replay_prompts rest

/-! ### The ordered effects of a terminal collision

Both terminal branches of the game loop (border collision, lines
210-219, and self-collision, lines 228-242) run the same sequence:
time.sleep(0.3), hide the snake, the score text and the food, then
score.game_over, which conditionally persists a record, writes the
game-over summary with the freshly re-read best, and updates the window
(scoreboard.py lines 112-154; decorative goto/color calls omitted).
After the loop exits, the module-level replay prompt is the next
user-visible step (main.py line 273).  Notably, scoreboard.py ends
game_over with the comment "Pause briefly so the player can see the
game-over screen" but contains no sleep call there. -/

inductive Ev where
  | sleepMs (ms : Nat)
  | hideSnake
  | hideScore
  | hideFood
  | persistCheck
  | writeSummary
  | windowUpdate
  | replayPrompt
deriving DecidableEq, Repr

/-- The event sequence of the game-over handling inside the loop. -/
def game_over_events : List Ev :=
  [.sleepMs 300, .hideSnake, .hideScore, .hideFood,
   .persistCheck, .writeSummary, .windowUpdate]

/-- The game-over handling followed by the replay prompt that the module
level shows next (when the window was not closed). -/
def session_end_events : List Ev := game_over_events ++ [.replayPrompt]

def isSleep : Ev → Bool
  | .sleepMs _ => true
  | _ => false

/-- The events that follow the first occurrence of a in l. -/
def events_after (a : Ev) (l : List Ev) : List Ev :=
  (l.dropWhile (fun e => e != a)).drop 1

/-- The events strictly between the first occurrence of a and the next
occurrence of c in l. -/
def events_between (a c : Ev) (l : List Ev) : List Ev :=
  (events_after a l).takeWhile (fun e => e != c)

/-- C9's reading of the code's game-over sequence: some pause happens
after the summary is drawn and before the replay prompt. -/
def pauseAfterSummary : Prop :=
  (events_between .writeSummary .replayPrompt session_end_events).any
    isSleep = true

/-- C1: the persisted best score is overwritten with the session score
only under the strict-greater guard of Score.game_over, the file is
never written by a non-terminal tick (and in a terminal tick only
through the game-over handling), and the two-session chain 0 then 7 then
5 leaves the store at 7. -/
theorem c1_best_score_guard :
    (∀ (score : Nat) (b : Int) (file : Option String),
        read_file_score file = some b →
        game_over_file score file
          = if (score : Int) > b then some (natRepr score) else file) ∧
    (∀ (s : GameState) (nf ns : Point),
        (tick s nf ns).2.gameOver = none → (tick s nf ns).1.file = s.file) ∧
    (∀ (s : GameState) (nf ns : Point),
        (tick s nf ns).1.file = s.file ∨
        (tick s nf ns).1.file = game_over_file s.score s.file) ∧
    game_over_file 7 (some "0") = some "7" ∧
    game_over_file 5 (game_over_file 7 (some "0")) = some "7" := by
  refine ⟨?_, ?_, ?_, by decide, by decide⟩
  · intro score b file h
    simp only [game_over_file, h, save_score]
  · intro s nf ns h
    unfold tick at h ⊢
    split_ifs at h ⊢ <;> simp_all
  · intro s nf ns
    unfold tick
    split_ifs <;> simp

theorem c1_witness :
    game_over_file 7 (some "0")
      = if (7 : Int) > 0 then some (natRepr 7) else some "0" :=
  c1_best_score_guard.1 7 0 (some "0") (by decide)

/-- C2: per tick the score never decreases, rises by exactly the tick's
scoreDelta which is at most 1; and on a tick with the head in bounds and
the food within distance 15 the branch respawns the food, extends the
snake by one segment, adds exactly 1 to the score and skips the
self-collision check. -/
theorem c2_score_per_tick :
    (∀ (s : GameState) (nf ns : Point),
        s.score ≤ (tick s nf ns).1.score ∧
        (tick s nf ns).1.score = s.score + (tick s nf ns).2.scoreDelta ∧
        (tick s nf ns).2.scoreDelta ≤ 1) ∧
    (∀ (s : GameState) (nf ns : Point),
        borderHit (headPos s) = false →
        distLt (headPos s) s.food 15 = true →
        tick s nf ns =
          ({ s with
              food := nf
              turtles := ns :: s.turtles
              score := s.score + 1 },
           ⟨none, true, true, 1, false⟩) ∧
        (tick s nf ns).1.turtles.length = s.turtles.length + 1) := by
  constructor
  · intro s nf ns
    unfold tick
    split_ifs <;> simp
  · intro s nf ns h1 h2
    unfold tick
    simp [h1, h2]

theorem c2_witness :
    borderHit (headPos ⟨[⟨0, 0⟩], ⟨5, 0⟩, 0, true, some "0"⟩) = false ∧
    distLt (headPos ⟨[⟨0, 0⟩], ⟨5, 0⟩, 0, true, some "0"⟩) ⟨5, 0⟩ 15 = true ∧
    (tick ⟨[⟨0, 0⟩], ⟨5, 0⟩, 0, true, some "0"⟩ ⟨60, 60⟩ ⟨0, 0⟩).1.score = 1 := by
  refine ⟨by decide, by decide, ?_⟩
  rw [(c2_score_per_tick.2 ⟨[⟨0, 0⟩], ⟨5, 0⟩, 0, true, some "0"⟩ ⟨60, 60⟩ ⟨0, 0⟩
      (by decide) (by decide)).1]

/-- C3: a tick reports a boundary game-over exactly when the post-move
head exceeds 485 horizontally or 385 vertically in absolute value
(strict comparisons); a head at x = 486 ends the session, one at x = 484
does not. -/
theorem c3_boundary_exact :
    (∀ (s : GameState) (nf ns : Point),
        ((headPos s).x > 485 ∨ (headPos s).x < -485 ∨
          (headPos s).y > 385 ∨ (headPos s).y < -385) →
        (tick s nf ns).2.gameOver = some .boundary ∧
        (tick s nf ns).1.game_on = false) ∧
    (∀ (s : GameState) (nf ns : Point),
        (tick s nf ns).2.gameOver = some .boundary →
        ((headPos s).x > 485 ∨ (headPos s).x < -485 ∨
          (headPos s).y > 385 ∨ (headPos s).y < -385)) ∧
    (tick ⟨[⟨486, 0⟩], ⟨0, 300⟩, 0, true, some "0"⟩ ⟨0, 0⟩ ⟨0, 0⟩).2.gameOver
      = some .boundary ∧
    (tick ⟨[⟨486, 0⟩], ⟨0, 300⟩, 0, true, some "0"⟩ ⟨0, 0⟩ ⟨0, 0⟩).1.game_on
      = false ∧
    (tick ⟨[⟨484, 0⟩], ⟨0, 300⟩, 0, true, some "0"⟩ ⟨0, 0⟩ ⟨0, 0⟩).2.gameOver
      = none ∧
    (tick ⟨[⟨484, 0⟩], ⟨0, 300⟩, 0, true, some "0"⟩ ⟨0, 0⟩ ⟨0, 0⟩).1.game_on
      = true := by
  refine ⟨?_, ?_, by decide, by decide, by decide, by decide⟩
  · intro s nf ns h
    have hb : borderHit (headPos s) = true := decide_eq_true h
    simp [tick, hb]
  · intro s nf ns h
    unfold tick at h
    split_ifs at h with h1 h2 h3
    · exact of_decide_eq_true h1
    all_goals simp_all

theorem c3_witness :
    (tick ⟨[⟨0, 486⟩], ⟨0, 0⟩, 0, true, some "0"⟩ ⟨0, 0⟩ ⟨0, 0⟩).2.gameOver
      = some .boundary :=
  (c3_boundary_exact.1 ⟨[⟨0, 486⟩], ⟨0, 0⟩, 0, true, some "0"⟩ ⟨0, 0⟩ ⟨0, 0⟩
    (by decide)).1

/-- C4: when neither the boundary nor the consumption condition fired,
the self-collision test covers exactly the segment list minus its last
two entries — with the head stored last, every segment except the head
and the one immediately behind it — and fires exactly when one of those
is within distance 10 of the head; for a length-4 creature, coincidence
with the segment two behind the head fires, coincidence with the
excluded entry directly behind the head does not. -/
theorem c4_self_collision_exclusion :
    (∀ (l : List Point) (b h food : Point) (sc : Nat) (g : Bool)
        (file : Option String) (nf ns : Point),
        borderHit h = false →
        distLt h food 15 = false →
        ((tick ⟨l ++ [b, h], food, sc, g, file⟩ nf ns).2.gameOver
            = some .selfCollision ↔
          l.any (fun seg => distLt h seg 10) = true)) ∧
    (tick ⟨[⟨100, 100⟩, ⟨0, 0⟩, ⟨20, 0⟩, ⟨0, 0⟩], ⟨300, 300⟩, 0, true,
        some "0"⟩ ⟨0, 0⟩ ⟨0, 0⟩).2.gameOver = some .selfCollision ∧
    (tick ⟨[⟨100, 100⟩, ⟨200, 200⟩, ⟨0, 0⟩, ⟨0, 0⟩], ⟨300, 300⟩, 0, true,
        some "0"⟩ ⟨0, 0⟩ ⟨0, 0⟩).2.gameOver = none := by
  refine ⟨?_, by decide, by decide⟩
  intro l b h food sc g file nf ns hb hf
  have hh : headPos ⟨l ++ [b, h], food, sc, g, file⟩ = h :=
    getLastD_append_pair l b h ⟨0, 0⟩
  unfold tick
  rw [hh]
  simp only [hb, hf, Bool.false_eq_true, if_false]
  unfold selfHit
  rw [dropLast_append_pair]
  by_cases h1 : l.any (fun seg => distLt h seg 10) = true <;> simp [h1]

theorem c4_witness :
    (tick ⟨[⟨0, 0⟩] ++ [⟨20, 0⟩, ⟨0, 0⟩], ⟨300, 300⟩, 0, true, some "0"⟩
        ⟨0, 0⟩ ⟨0, 0⟩).2.gameOver = some .selfCollision :=
  (c4_self_collision_exclusion.1 [⟨0, 0⟩] ⟨20, 0⟩ ⟨0, 0⟩ ⟨300, 300⟩ 0 true
    (some "0") ⟨0, 0⟩ ⟨0, 0⟩ (by decide) (by decide)).mpr (by decide)

theorem close_clicks_destroyed :
    ∀ (n : Nat) (s : CloseState),
      s.destroyed = true → (close_clicks n s).2 = 0 := by
  intro n s h
  cases n with
  | zero => rfl
  | succ n => simp [close_clicks, h]

/-- C5: tk_window.destroy() runs only when, at handler entry, game_on is
already false and is_on_close already true; a live session never gets
destroyed; over any run of close clicks the destroy call executes at
most once; once is_on_close is set main's final return value is False;
and a replay-loop iteration that observes is_on_close shows no prompt. -/
theorem c5_close_teardown :
    (∀ s : CloseState,
        (on_close s).2 = true → s.game_on = false ∧ s.is_on_close = true) ∧
    (∀ s : CloseState,
        s.game_on = true →
        (on_close s).2 = false ∧ (on_close s).1.destroyed = s.destroyed) ∧
    (∀ (n : Nat) (s : CloseState),
        s.destroyed = false → (close_clicks n s).2 ≤ 1) ∧
    main_returns true = false ∧
    (∀ (inp : Option String) (rest : List (Bool × Option String)),
        replay_prompts ((true, inp) :: rest) = 0) := by
  refine ⟨?_, ?_, ?_, rfl, ?_⟩
  · intro s h
    by_cases hg : (!s.game_on && s.is_on_close) = true
    · simp only [Bool.and_eq_true, Bool.not_eq_true'] at hg
      exact hg
    · simp [on_close, hg] at h
  · intro s h
    unfold on_close
    simp [h]
  · intro n
    induction n with
    | zero => intro s h; simp [close_clicks]
    | succ n ih =>
      intro s h
      rw [close_clicks]
      simp only [h, Bool.false_eq_true, if_false]
      by_cases hg : (!s.game_on && s.is_on_close) = true
      · have h0 : (close_clicks n (⟨false, true, true⟩ : CloseState)).2 = 0 :=
          close_clicks_destroyed n _ rfl
        simp [on_close, hg, h0]
      · have : (on_close s).1 = ⟨false, true, s.destroyed⟩ := by
          simp [on_close, hg]
        simp only [on_close, hg, Bool.false_eq_true, if_false]
        have h2 := ih ⟨false, true, s.destroyed⟩ h
        omega
  · intro inp rest
    simp [replay_prompts]

theorem c5_witness :
    (on_close ⟨false, true, false⟩).2 = true →
      (CloseState.mk false true false).game_on = false ∧
      (CloseState.mk false true false).is_on_close = true := by
  intro h
  exact c5_close_teardown.1 ⟨false, true, false⟩ h

/-- C6: the speed prompt loop starts a session only for an all-digit
input whose value lies in [10, 20]; every invalid non-cancel input adds
one transient hint and re-prompts; a cancelled prompt yields the goodbye
message and an immediate False return with no session. -/
theorem c6_speed_prompt :
    (∀ (ins : List (Option String)) (k : Nat),
        (speed_phase ins).1 = .started k → 10 ≤ k ∧ k ≤ 20) ∧
    (∀ (s : String) (rest : List (Option String)),
        validSpeed s = true →
        speed_phase (some s :: rest) = (.started (digitsToNat s.data), 0) ∧
        s.data.all Char.isDigit = true ∧
        10 ≤ digitsToNat s.data ∧ digitsToNat s.data ≤ 20) ∧
    (∀ (s : String) (rest : List (Option String)),
        validSpeed s = false →
        (speed_phase (some s :: rest)).1 = (speed_phase rest).1 ∧
        (speed_phase (some s :: rest)).2 = (speed_phase rest).2 + 1) ∧
    (∀ rest : List (Option String),
        speed_phase (none :: rest) = (.cancelled, 0)) ∧
    main_speed_result .cancelled = ⟨true, some false, none⟩ := by
  refine ⟨?_, ?_, ?_, fun rest => rfl, rfl⟩
  · intro ins
    induction ins with
    | nil => intro k h; simp [speed_phase] at h
    | cons a rest ih =>
      intro k h
      rcases a with _ | s
      · simp [speed_phase] at h
      · by_cases hv : validSpeed s = true
        · simp only [speed_phase, hv, if_true] at h
          have hk : digitsToNat s.data = k := by
            simpa using h
          simp only [validSpeed, Bool.and_eq_true, Bool.not_eq_true',
            decide_eq_false_iff_not, not_lt, not_le] at hv
          omega
        · simp only [speed_phase, hv, Bool.false_eq_true, if_false] at h
          exact ih k h
  · intro s rest hv
    have hv2 := hv
    simp only [validSpeed, Bool.and_eq_true, Bool.not_eq_true',
      decide_eq_false_iff_not, not_lt, not_le, isDigitStr] at hv2
    refine ⟨by simp [speed_phase, hv], hv2.1.1.2, by omega, by omega⟩
  · intro s rest hv
    constructor <;> simp [speed_phase, hv]

theorem c6_witness :
    speed_phase [some "abc", some "25", some "15"]
      = (.started 15, 2) := by
  have h1 := c6_speed_prompt.2.2.1 "abc" [some "25", some "15"] (by decide)
  have h2 := c6_speed_prompt.2.2.1 "25" [some "15"] (by decide)
  have h3 := c6_speed_prompt.2.1 "15" [] (by decide)
  have : speed_phase [some "15"] = (.started 15, 0) := by
    rw [h3.1]; decide
  rw [Prod.ext_iff]
  refine ⟨?_, ?_⟩
  · rw [h1.1, h2.1, this]
  · rw [h1.2, h2.2, this]

/-- C7: a missing score file is created holding "0" by the Score
constructor, so a first-ever read returns 0; a file holding a
non-integer string makes read_file_score raise (no defaulting to 0). -/
theorem c7_missing_and_corrupt :
    score_init_file none = some "0" ∧
    read_file_score (score_init_file none) = some 0 ∧
    (∀ s : String, pyInt? s = none → read_file_score (some s) = none) ∧
    read_file_score (some "seven!") = none := by
  refine ⟨rfl, by decide, ?_, by decide⟩
  intro s h
  simpa [read_file_score] using h

theorem c7_witness : read_file_score (some "7.5") = none :=
  c7_missing_and_corrupt.2.2.1 "7.5" (by decide)

/-- C8: inside the game-over handling the conditional persist precedes
the summary write, and the summary re-reads the store after the persist,
so a record-breaking session displays its own new best. -/
theorem c8_summary_shows_new_record :
    (∀ (score : Nat) (b : Int) (file : Option String),
        read_file_score file = some b →
        (score : Int) > b →
        game_over_file score file = some (natRepr score) ∧
        game_over_display score file = some (score : Int)) ∧
    game_over_events.indexOf .persistCheck
      < game_over_events.indexOf .writeSummary := by
  refine ⟨?_, by decide⟩
  intro score b file h hgt
  have hfile : game_over_file score file = some (natRepr score) := by
    simp [game_over_file, h, hgt, save_score]
  refine ⟨hfile, ?_⟩
  rw [game_over_display, hfile]
  simpa [read_file_score] using pyInt_natRepr score

theorem c8_witness :
    game_over_display 7 (some "0") = some 7 :=
  (c8_summary_shows_new_record.1 7 0 (some "0") (by decide) (by decide)).2

/-- C10: save_score overwrites the file with the decimal text of the
score unconditionally, even when the stored value is larger; the
strict-greater guard lives solely at its call site in game_over. -/
theorem c10_unconditional_overwrite :
    (∀ (score : Nat) (file : Option String),
        save_score score file = some (natRepr score)) ∧
    save_score 1 (some "100") = some "1" ∧
    (∀ (score : Nat) (b : Int) (file : Option String),
        read_file_score file = some b →
        ((score : Int) > b →
          game_over_file score file = save_score score file) ∧
        (¬(score : Int) > b → game_over_file score file = file)) := by
  refine ⟨fun score file => rfl, by decide, ?_⟩
  intro score b file h
  constructor
  · intro hgt
    simp [game_over_file, h, hgt]
  · intro hle
    simp [game_over_file, h, hle]

theorem c10_witness :
    game_over_file 5 (some "7") = some "7" :=
  (c10_unconditional_overwrite.2.2 5 7 (some "7") (by decide)).2 (by decide)

/-- C9 as the spec states it is false of the code: in the code's
game-over sequence no pause separates the summary from the replay
prompt (the 0.3 s sleep precedes the summary; scoreboard.py's trailing
"pause briefly" comment has no sleep call under it). -/
theorem c9_counterexample : ¬ pauseAfterSummary := by
  unfold pauseAfterSummary
  decide

/-- C9 amended: on every terminal collision the controller pauses 0.3 s
and then presents the game-over summary with the durable best; the
replay prompt follows the summary with no pause in between. -/
theorem c9_pause_precedes_summary :
    (session_end_events.takeWhile (fun e => e != .writeSummary)).any isSleep
      = true ∧
    (events_between .writeSummary .replayPrompt session_end_events).any isSleep
      = false ∧
    session_end_events.indexOf .writeSummary
      < session_end_events.indexOf .replayPrompt := by
  decide
